import Mathlib

/-
Shallow embedding of `src/TabAlert/TabAlert.js` (the TabAlert browser-tab
flasher) and verification of its specification claims.

The program is single-threaded and event-driven; every operation is a pure
function on an explicit `World` that models the host document (title and
favicon link element), the host interval-timer facility, the controller's
closure-private variables, and a ghost trace of observable write events.
-/

namespace TabAlert

/-- A favicon image resource: a data URI or URL (`image`, the element's `href`)
paired with a mime `type`, as read from and written to the favicon link
element (source: `_getOriginalFavicon`, `_toggleFavicon`). -/
structure Icon where
  image : String
  type : String
  deriving DecidableEq

/-- The host document: the displayed `document.title` and the favicon link
element; `favicon = none` models the absence of a
`link[rel="shortcut icon"]` element. -/
structure Doc where
  title : String
  favicon : Option Icon
  deriving DecidableEq

/-- The host interval-timer facility: the list of currently active interval
handles and the next fresh handle that `window.setInterval` would return. -/
structure Timers where
  active : List Nat
  next : Nat
  deriving DecidableEq

/-- The closure-private mutable variables of one TabAlert controller instance
(source lines 40-52): `alertDelay`, `alertIcon`, `alertTitle`, `countdown`,
`intervalID`, `originalIcon`, `originalTitle`, `showOriginal`.
`intervalID = none` models the initially-undefined `intervalID` variable. -/
structure CState where
  alertDelay : Int
  alertIcon : Icon
  alertTitle : String
  countdown : Int
  intervalID : Option Nat
  originalIcon : Icon
  originalTitle : String
  showOriginal : Bool
  deriving DecidableEq

/-- Ghost instrumentation, not part of the program state: counts how many
times `stop()` has been invoked, how many assignments to `document.title`
have been performed, and how many attribute-write visits to the favicon
element have occurred. Used to state "X is never written / never invoked"
properties as trace counters. -/
structure Trace where
  stopCalls : Nat
  titleWrites : Nat
  faviconWrites : Nat
  deriving DecidableEq

/-- The whole mutable state visible to one controller: host document, host
timers, the controller's closure variables, and the ghost trace. -/
structure World where
  doc : Doc
  timers : Timers
  ctrl : CState
  trace : Trace
  deriving DecidableEq

/-- The `args` object accepted by `alert` (all fields optional in JS).
`delay` holds the integer that `parseInt` yields on the provided value,
`none` when the field is absent or `parseInt` yields `NaN`. -/
structure AlertConfig where
  message : Option String
  icon : Option String
  times : Option Int
  delay : Option Int
  deriving DecidableEq

/-- The JS value actually passed to `alert`: either a config object, or
`undefined`/`null`, reading a property of which throws a `TypeError`. -/
inductive JSArg where
  | undef : JSArg
  | obj : AlertConfig → JSArg
  deriving DecidableEq

/-- `const DEFAULT_DELAY = 1000` (source line 20). -/
def DEFAULT_DELAY : Int := 1000

/-- The fixed icon catalog `ICONS` (source lines 21-38). -/
def ICONS : List (String × String) := [
  ("bellhop bell", "🛎"),
  ("speech balloon", "💬"),
  ("police car light", "🚨"),
  ("stop sign", "🛑"),
  ("hour glass done", "⌛"),
  ("alarm clock", "⏰"),
  ("stopwatch", "⏱"),
  ("timer clock", "⏲"),
  ("star", "⭐"),
  ("fire", "🔥"),
  ("party popper", "🎉"),
  ("bell", "🔔"),
  ("envelope with arrow", "📩"),
  ("locked", "🔒"),
  ("exclamation mark", "❗"),
  ("red circle", "🔴")]

/-- The property read `ICONS[name]`. Every glyph in the catalog is a
non-empty string, so a successful lookup is truthy in the source's guard
`(args.icon !== undefined) && (ICONS[args.icon])`. -/
def iconsFind (name : String) : Option String :=
  (ICONS.find? (fun p => p.1 == name)).map (fun p => p.2)

/-- `_createImageFromText` (source lines 58-75). The 32x32 canvas rendering
surface is an external collaborator (spec section 1); its `toDataURL` output
is modelled as a non-empty `data:image/png` URI determined by the glyph,
paired with the mime type `image/png`. The controller logic only ever
compares the resulting `image` field against the empty string. -/
def _createImageFromText (str : String) : Icon :=
  { image := "data:image/png;base64," ++ str, type := "image/png" }

/-- `_toggleFavicon` (source lines 80-92): if a favicon link element exists,
write the original or alert icon's `type`/`href` attributes onto it
according to `showOriginal`; otherwise do nothing. -/
def _toggleFavicon (w : World) : World :=
  match w.doc.favicon with
  | none => w
  | some _ =>
    let icon := if w.ctrl.showOriginal then w.ctrl.originalIcon else w.ctrl.alertIcon
    { w with doc := { w.doc with favicon := some icon },
             trace := { w.trace with faviconWrites := w.trace.faviconWrites + 1 } }

/-- `_toggleTitle` (source lines 97-99): assign `document.title` the original
or alert title according to `showOriginal`. -/
def _toggleTitle (w : World) : World :=
  { w with
    doc := { w.doc with
             title := if w.ctrl.showOriginal then w.ctrl.originalTitle else w.ctrl.alertTitle },
    trace := { w.trace with titleWrites := w.trace.titleWrites + 1 } }

/-- `_getOriginalFavicon` (source lines 105-119): read the favicon element's
`href`/`type`; when the element is absent, warn and return the empty
resource. -/
def _getOriginalFavicon (doc : Doc) : Icon :=
  match doc.favicon with
  | some f => f
  | none => { image := "", type := "" }

/-- `window.clearInterval(id)`: cancel the interval with that handle;
a call with the initially-undefined `intervalID` is a no-op. -/
def clearInterval (t : Timers) (id : Option Nat) : Timers :=
  match id with
  | none => t
  | some i => { t with active := t.active.filter (fun x => x != i) }

/-- `window.setInterval(cb, delay)`: register a fresh recurring interval and
return its handle. -/
def setInterval (t : Timers) : Nat × Timers :=
  (t.next, { active := t.active ++ [t.next], next := t.next + 1 })

/-- `publicObject.stop` (source lines 193-198): clear the interval, force
`showOriginal = true`, and re-apply the original favicon and title. -/
def stop (w : World) : World :=
  let w1 := { w with timers := clearInterval w.timers w.ctrl.intervalID,
                     trace := { w.trace with stopCalls := w.trace.stopCalls + 1 } }
  let w2 := { w1 with ctrl := { w1.ctrl with showOriginal := true } }
  _toggleTitle (_toggleFavicon w2)

/-- `countdown -= 1; if (countdown < -1) countdown = -1` expressed on the
already-decremented value (source lines 126-127). -/
def clampFloor (c : Int) : Int := if c < -1 then -1 else c

/-- The two conditional display toggles at the end of `_timerEvent`
(source lines 129-130): favicon if an alert icon is configured, title if an
alert title is configured. -/
def _tickToggles (w : World) : World :=
  let w4 := if w.ctrl.alertIcon.image ≠ "" then _toggleFavicon w else w
  if w4.ctrl.alertTitle ≠ "" then _toggleTitle w4 else w4

/-- `_timerEvent` (source lines 124-131): flip `showOriginal`, decrement and
clamp `countdown`, auto-stop when it reaches exactly zero, then apply the
configured display toggles. -/
def _timerEvent (w : World) : World :=
  let w1 := { w with ctrl := { w.ctrl with showOriginal := ! w.ctrl.showOriginal } }
  let w2 := { w1 with ctrl := { w1.ctrl with countdown := clampFloor (w1.ctrl.countdown - 1) } }
  let w3 := if w2.ctrl.countdown = 0 then stop w2 else w2
  _tickToggles w3

/-- `_startTimer` (source lines 136-142): reset `showOriginal`, install a
fresh interval (overwriting `intervalID` without cancelling any previous
interval), and fire one tick immediately. -/
def _startTimer (w : World) : World :=
  let w1 := { w with ctrl := { w.ctrl with showOriginal := true } }
  let p := setInterval w1.timers
  let w2 := { w1 with timers := p.2, ctrl := { w1.ctrl with intervalID := some p.1 } }
  _timerEvent w2

/-- The resolution of `alertIcon` by `alert` (source lines 170-175): if an
icon name is provided and found in the catalog (every catalog glyph is
truthy), rasterize its glyph; otherwise reset the alert icon to empty. -/
def resolveAlertIcon (icon : Option String) : Icon :=
  match icon with
  | some name =>
    match iconsFind name with
    | some glyph => _createImageFromText glyph
    | none => { image := "", type := "" }
  | none => { image := "", type := "" }

/-- The body of `publicObject.alert` before the final `_startTimer()` call
(source lines 162-186): capture the current title/favicon as originals and
resolve `alertTitle`, `alertIcon`, `countdown` and `alertDelay` from the
config. -/
def alertBody (cfg : AlertConfig) (w : World) : World :=
  let c0 := w.ctrl
  let c1 := { c0 with originalTitle := w.doc.title,
                      originalIcon := _getOriginalFavicon w.doc }
  let c2 := { c1 with alertTitle := match cfg.message with
                                    | some m => m
                                    | none => "" }
  let c3 := { c2 with alertIcon := resolveAlertIcon cfg.icon }
  let c4 := { c3 with countdown := match cfg.times with
                                   | some t => t * 2
                                   | none => 0 }
  let c5 := { c4 with alertDelay := match cfg.delay with
                                    | some d => d
                                    | none => DEFAULT_DELAY }
  { w with ctrl := c5 }

/-- `publicObject.alert` (source lines 162-187): resolve the configuration,
then `_startTimer()`. -/
def alert (cfg : AlertConfig) (w : World) : World :=
  _startTimer (alertBody cfg w)

/-- The state on which `_startTimer`'s immediate `_timerEvent()` call runs:
configuration resolved, `showOriginal` reset, fresh interval installed. -/
def preTick (cfg : AlertConfig) (w : World) : World :=
  let wb := alertBody cfg w
  { doc := wb.doc,
    timers := (setInterval wb.timers).2,
    ctrl := { wb.ctrl with showOriginal := true,
                           intervalID := some (setInterval wb.timers).1 },
    trace := wb.trace }

/-- `k` further timer-driven firings of `_timerEvent` after some point. -/
def ticks : Nat → World → World
  | 0, w => w
  | Nat.succ k, w => ticks k (_timerEvent w)

/-- Whether the controller's stored interval handle denotes a currently
active recurring timer. -/
def timerActiveB (w : World) : Bool :=
  match w.ctrl.intervalID with
  | none => false
  | some i => decide (i ∈ w.timers.active)

/-- The initial closure variables of a freshly constructed controller
(source lines 40-52): `originalTitle` is read from the document at
construction time, everything else starts empty/default. -/
def initCState (doc : Doc) : CState :=
  { alertDelay := DEFAULT_DELAY,
    alertIcon := { image := "", type := "" },
    alertTitle := "",
    countdown := -1,
    intervalID := none,
    originalIcon := { image := "", type := "" },
    originalTitle := doc.title,
    showOriginal := true }

/-- `publicObject.alert` at the JS call boundary: passing `undefined` or
`null` throws a `TypeError` at the first property read `args.message`;
any object argument runs the body, which contains no further throw point. -/
def alertJS : JSArg → World → Except String World
  | JSArg.undef, _ => Except.error "TypeError: cannot read properties of undefined"
  | JSArg.obj cfg, w => Except.ok (alert cfg w)

/-- `publicObject.stop` at the JS call boundary: its body contains no throw
point (`clearInterval` tolerates an undefined handle), so it always returns
normally. -/
def stopJS (w : World) : Except String World :=
  Except.ok (stop w)

/-- Whether a JS-boundary call raised an exception. -/
def jsThrows : Except String World → Bool
  | Except.error _ => true
  | Except.ok _ => false

/-- A page with several independently constructed controller instances
(`new TabAlert()` runs the factory once per instance, creating fresh closure
variables), sharing the host document and timer facility. -/
structure MultiWorld where
  doc : Doc
  timers : Timers
  ctrls : Nat → CState
  trace : Trace

/-- The world as seen by controller `i` on a multi-controller page. -/
def toWorld (m : MultiWorld) (i : Nat) : World :=
  { doc := m.doc, timers := m.timers, ctrl := m.ctrls i, trace := m.trace }

/-- Write back the world produced by an operation of controller `i`: the
shared document/timers are updated, and only instance `i`'s closure
variables change. -/
def fromWorld (m : MultiWorld) (i : Nat) (w : World) : MultiWorld :=
  { doc := w.doc, timers := w.timers, trace := w.trace,
    ctrls := Function.update m.ctrls i w.ctrl }

/-- `alert` invoked on controller instance `i`. -/
def alertAt (i : Nat) (cfg : AlertConfig) (m : MultiWorld) : MultiWorld :=
  fromWorld m i (alert cfg (toWorld m i))

/-- `stop` invoked on controller instance `i`. -/
def stopAt (i : Nat) (m : MultiWorld) : MultiWorld :=
  fromWorld m i (stop (toWorld m i))

/-- A concrete host document used for concrete evaluations. -/
def doc0 : Doc :=
  { title := "Home", favicon := some { image := "favicon.ico", type := "image/x-icon" } }

/-- A concrete initial world: fresh page, fresh controller, no active timers. -/
def W0 : World :=
  { doc := doc0,
    timers := { active := [], next := 0 },
    ctrl := initCState doc0,
    trace := { stopCalls := 0, titleWrites := 0, faviconWrites := 0 } }

/-- The empty config object (all fields omitted). -/
def cfgEmpty : AlertConfig :=
  { message := none, icon := none, times := none, delay := none }

/-- A config with `times = 1` and everything else omitted. -/
def cfgT1 : AlertConfig :=
  { message := none, icon := none, times := some 1, delay := none }

/-- A config providing `delay = 0` and nothing else. -/
def cfgD0 : AlertConfig :=
  { message := none, icon := none, times := none, delay := some 0 }

/-- A config with `times = 0` and everything else omitted. -/
def cfgT0 : AlertConfig :=
  { message := none, icon := none, times := some 0, delay := none }

/-- A concrete config with a message and bounded times, for witnesses. -/
def cfgMsg : AlertConfig :=
  { message := some "Ping", icon := none, times := some 1, delay := some 500 }

/-- A concrete page with two controller instances. -/
def M0 : MultiWorld :=
  { doc := doc0,
    timers := { active := [], next := 0 },
    ctrls := fun _ => initCState doc0,
    trace := { stopCalls := 0, titleWrites := 0, faviconWrites := 0 } }

end TabAlert

namespace TabAlert

/-! ### Basic frame lemmas for the display toggles -/

@[simp] theorem toggleFavicon_ctrl (w : World) : (_toggleFavicon w).ctrl = w.ctrl := by
  unfold _toggleFavicon; cases w.doc.favicon <;> rfl

@[simp] theorem toggleFavicon_timers (w : World) : (_toggleFavicon w).timers = w.timers := by
  unfold _toggleFavicon; cases w.doc.favicon <;> rfl

@[simp] theorem toggleFavicon_stopCalls (w : World) :
    (_toggleFavicon w).trace.stopCalls = w.trace.stopCalls := by
  unfold _toggleFavicon; cases w.doc.favicon <;> rfl

@[simp] theorem toggleFavicon_titleWrites (w : World) :
    (_toggleFavicon w).trace.titleWrites = w.trace.titleWrites := by
  unfold _toggleFavicon; cases w.doc.favicon <;> rfl

@[simp] theorem toggleFavicon_title (w : World) :
    (_toggleFavicon w).doc.title = w.doc.title := by
  unfold _toggleFavicon; cases w.doc.favicon <;> rfl

@[simp] theorem toggleFavicon_isSome (w : World) :
    (_toggleFavicon w).doc.favicon.isSome = w.doc.favicon.isSome := by
  unfold _toggleFavicon; cases h : w.doc.favicon <;> simp [h]

@[simp] theorem toggleTitle_ctrl (w : World) : (_toggleTitle w).ctrl = w.ctrl := rfl

@[simp] theorem toggleTitle_timers (w : World) : (_toggleTitle w).timers = w.timers := rfl

@[simp] theorem toggleTitle_stopCalls (w : World) :
    (_toggleTitle w).trace.stopCalls = w.trace.stopCalls := rfl

@[simp] theorem toggleTitle_titleWrites (w : World) :
    (_toggleTitle w).trace.titleWrites = w.trace.titleWrites + 1 := rfl

@[simp] theorem toggleTitle_favicon (w : World) :
    (_toggleTitle w).doc.favicon = w.doc.favicon := rfl

theorem toggleTitle_title (w : World) :
    (_toggleTitle w).doc.title
      = (if w.ctrl.showOriginal then w.ctrl.originalTitle else w.ctrl.alertTitle) := rfl

/-! ### Characterization of `stop` -/

/-- Full characterization of `stop`: it cancels the stored interval, forces
`showOriginal`, rewrites the title to the stored original, and rewrites the
favicon element (when present) to the stored original icon. -/
theorem stop_spec (w : World) :
    stop w =
      { doc := { title := w.ctrl.originalTitle,
                 favicon := match w.doc.favicon with
                            | some _ => some w.ctrl.originalIcon
                            | none => none },
        timers := clearInterval w.timers w.ctrl.intervalID,
        ctrl := { w.ctrl with showOriginal := true },
        trace := { stopCalls := w.trace.stopCalls + 1,
                   titleWrites := w.trace.titleWrites + 1,
                   faviconWrites := w.trace.faviconWrites
                     + (match w.doc.favicon with
                        | some _ => 1
                        | none => 0) } } := by
  cases h : w.doc.favicon <;>
    simp [stop, _toggleFavicon, _toggleTitle, h]

end TabAlert

namespace TabAlert

/-! ### Arithmetic facts about the countdown clamp -/

theorem clampFloor_ne_zero (c : Int) (h : c ≠ 1) : clampFloor (c - 1) ≠ 0 := by
  unfold clampFloor; split <;> omega

theorem clampFloor_eq_pred (c : Int) (h : 1 < c) : clampFloor (c - 1) = c - 1 := by
  unfold clampFloor; split <;> omega

theorem clampFloor_eq_neg_one (c : Int) (h : c ≤ 0) : clampFloor (c - 1) = -1 := by
  unfold clampFloor; split <;> omega

theorem clampFloor_eq_zero (c : Int) (h : c = 1) : clampFloor (c - 1) = 0 := by
  unfold clampFloor; split <;> omega

/-! ### Frame lemmas for the trailing display toggles of a tick -/

theorem tickToggles_ctrl (w : World) : (_tickToggles w).ctrl = w.ctrl := by
  by_cases h1 : w.ctrl.alertIcon.image = "" <;>
    by_cases h2 : w.ctrl.alertTitle = "" <;>
      simp [_tickToggles, h1, h2]

theorem tickToggles_timers (w : World) : (_tickToggles w).timers = w.timers := by
  by_cases h1 : w.ctrl.alertIcon.image = "" <;>
    by_cases h2 : w.ctrl.alertTitle = "" <;>
      simp [_tickToggles, h1, h2]

theorem tickToggles_stopCalls (w : World) :
    (_tickToggles w).trace.stopCalls = w.trace.stopCalls := by
  by_cases h1 : w.ctrl.alertIcon.image = "" <;>
    by_cases h2 : w.ctrl.alertTitle = "" <;>
      simp [_tickToggles, h1, h2]

theorem tickToggles_isSome (w : World) :
    (_tickToggles w).doc.favicon.isSome = w.doc.favicon.isSome := by
  by_cases h1 : w.ctrl.alertIcon.image = "" <;>
    by_cases h2 : w.ctrl.alertTitle = "" <;>
      simp [_tickToggles, h1, h2]

theorem tickToggles_titleWrites_empty (w : World) (h : w.ctrl.alertTitle = "") :
    (_tickToggles w).trace.titleWrites = w.trace.titleWrites := by
  by_cases h1 : w.ctrl.alertIcon.image = "" <;>
    simp [_tickToggles, h1, h]

/-- When the display already shows the stored originals and `showOriginal` is
set, the trailing toggles of a tick leave the display unchanged. -/
theorem tickToggles_stable (w : World) (hs : w.ctrl.showOriginal = true)
    (ht : w.doc.title = w.ctrl.originalTitle)
    (hf : w.doc.favicon = none ∨ w.doc.favicon = some w.ctrl.originalIcon) :
    (_tickToggles w).doc.title = w.ctrl.originalTitle ∧
    (_tickToggles w).doc.favicon = w.doc.favicon := by
  rcases hf with hf | hf <;>
    by_cases h1 : w.ctrl.alertIcon.image = "" <;>
      by_cases h2 : w.ctrl.alertTitle = "" <;>
        simp [_tickToggles, _toggleFavicon, _toggleTitle, h1, h2, hf, hs, ht]

end TabAlert

namespace TabAlert

/-! ### Behaviour of a single tick -/

/-- A tick whose pre-state countdown is not `1` does not reach zero after the
decrement, hence performs no auto-stop: the timers and the stop counter are
untouched and the countdown becomes its clamped decrement. -/
theorem tick_nostop (w : World) (h : w.ctrl.countdown ≠ 1) :
    (_timerEvent w).timers = w.timers ∧
    (_timerEvent w).trace.stopCalls = w.trace.stopCalls ∧
    (_timerEvent w).ctrl.countdown = clampFloor (w.ctrl.countdown - 1) := by
  have hc : clampFloor (w.ctrl.countdown - 1) ≠ 0 := clampFloor_ne_zero _ h
  simp only [_timerEvent]
  rw [if_neg hc]
  refine ⟨?_, ?_, ?_⟩
  · rw [tickToggles_timers]
  · rw [tickToggles_stopCalls]
  · rw [tickToggles_ctrl]

/-- Every tick, stopping or not, leaves the configuration-carrying fields of
the controller state unchanged. -/
theorem tick_frame (w : World) :
    (_timerEvent w).ctrl.originalTitle = w.ctrl.originalTitle ∧
    (_timerEvent w).ctrl.originalIcon = w.ctrl.originalIcon ∧
    (_timerEvent w).ctrl.alertTitle = w.ctrl.alertTitle ∧
    (_timerEvent w).ctrl.alertIcon = w.ctrl.alertIcon ∧
    (_timerEvent w).ctrl.alertDelay = w.ctrl.alertDelay ∧
    (_timerEvent w).ctrl.intervalID = w.ctrl.intervalID := by
  simp only [_timerEvent]
  split
  · simp [tickToggles_ctrl, stop_spec]
  · simp [tickToggles_ctrl]

/-- Every tick preserves the presence or absence of the favicon element. -/
theorem tick_isSome (w : World) :
    (_timerEvent w).doc.favicon.isSome = w.doc.favicon.isSome := by
  simp only [_timerEvent]
  split
  · rw [tickToggles_isSome, stop_spec]
    cases h : w.doc.favicon <;> simp [h]
  · rw [tickToggles_isSome]

/-- With an empty alert title, a tick that performs no auto-stop never
assigns `document.title`. -/
theorem tick_titleWrites_empty (w : World) (he : w.ctrl.alertTitle = "")
    (h : w.ctrl.countdown ≠ 1) :
    (_timerEvent w).trace.titleWrites = w.trace.titleWrites := by
  have hc : clampFloor (w.ctrl.countdown - 1) ≠ 0 := clampFloor_ne_zero _ h
  simp only [_timerEvent]
  rw [if_neg hc]
  rw [tickToggles_titleWrites_empty _ (by simpa using he)]

/-- The trailing toggles after an embedded `stop()` rewrite the same original
values that `stop()` just restored, so the display is left exactly as
`stop()` left it. -/
theorem tickToggles_stop (w : World) :
    (_tickToggles (stop w)).doc.title = w.ctrl.originalTitle ∧
    (_tickToggles (stop w)).doc.favicon = (stop w).doc.favicon ∧
    (_tickToggles (stop w)).ctrl = (stop w).ctrl ∧
    (_tickToggles (stop w)).timers = (stop w).timers ∧
    (_tickToggles (stop w)).trace.stopCalls = (stop w).trace.stopCalls := by
  have hs : (stop w).ctrl.showOriginal = true := by rw [stop_spec]
  have ht : (stop w).doc.title = (stop w).ctrl.originalTitle := by rw [stop_spec]
  have hf : (stop w).doc.favicon = none ∨
      (stop w).doc.favicon = some (stop w).ctrl.originalIcon := by
    rw [stop_spec]; cases w.doc.favicon <;> simp
  obtain ⟨h1, h2⟩ := tickToggles_stable (stop w) hs ht hf
  refine ⟨?_, h2, tickToggles_ctrl _, tickToggles_timers _, tickToggles_stopCalls _⟩
  rw [h1, stop_spec]

/-- A tick whose pre-state countdown is exactly `1` decrements it to `0` and
invokes the auto-stop within that same tick: the stored interval is
cancelled, `showOriginal` is forced, and the display ends on the stored
original title and favicon. With an empty alert title the one and only
title assignment of such a tick is the one performed by `stop()`. -/
theorem tick_final (w : World) (h : w.ctrl.countdown = 1) :
    (_timerEvent w).ctrl.countdown = 0 ∧
    (_timerEvent w).ctrl.showOriginal = true ∧
    (_timerEvent w).trace.stopCalls = w.trace.stopCalls + 1 ∧
    (_timerEvent w).timers = clearInterval w.timers w.ctrl.intervalID ∧
    (_timerEvent w).doc.title = w.ctrl.originalTitle ∧
    (_timerEvent w).doc.favicon
      = (match w.doc.favicon with
         | some _ => some w.ctrl.originalIcon
         | none => none) ∧
    (w.ctrl.alertTitle = "" →
      (_timerEvent w).trace.titleWrites = w.trace.titleWrites + 1) := by
  have hc : clampFloor (w.ctrl.countdown - 1) = 0 := clampFloor_eq_zero _ h
  simp only [_timerEvent]
  rw [if_pos hc]
  obtain ⟨t1, t2, t3, t4, t5⟩ := tickToggles_stop
    { w with ctrl := { w.ctrl with showOriginal := ! w.ctrl.showOriginal,
                                   countdown := clampFloor (w.ctrl.countdown - 1) } }
  refine ⟨?_, ?_, ?_, ?_, ?_, ?_, ?_⟩
  · rw [t3, stop_spec]; simpa using hc
  · rw [t3, stop_spec]
  · rw [t5, stop_spec]
  · rw [t4, stop_spec]
  · simpa using t1
  · rw [t2, stop_spec]
  · intro he
    rw [tickToggles_titleWrites_empty _ (by rw [stop_spec]; simpa using he), stop_spec]

end TabAlert

namespace TabAlert

/-! ### Behaviour of iterated ticks -/

theorem ticks_succ_right (k : Nat) (w : World) :
    ticks (k + 1) w = _timerEvent (ticks k w) := by
  induction k generalizing w with
  | zero => rfl
  | succ k ih =>
    show ticks (k + 1) (_timerEvent w) = _
    rw [ih]
    rfl

/-- The configuration-carrying controller fields survive any number of
ticks. -/
theorem ticks_frame (k : Nat) (w : World) :
    (ticks k w).ctrl.originalTitle = w.ctrl.originalTitle ∧
    (ticks k w).ctrl.originalIcon = w.ctrl.originalIcon ∧
    (ticks k w).ctrl.alertTitle = w.ctrl.alertTitle ∧
    (ticks k w).ctrl.alertIcon = w.ctrl.alertIcon ∧
    (ticks k w).ctrl.alertDelay = w.ctrl.alertDelay ∧
    (ticks k w).ctrl.intervalID = w.ctrl.intervalID := by
  induction k generalizing w with
  | zero => exact ⟨rfl, rfl, rfl, rfl, rfl, rfl⟩
  | succ k ih =>
    obtain ⟨i1, i2, i3, i4, i5, i6⟩ := ih (_timerEvent w)
    obtain ⟨t1, t2, t3, t4, t5, t6⟩ := tick_frame w
    exact ⟨i1.trans t1, i2.trans t2, i3.trans t3, i4.trans t4, i5.trans t5, i6.trans t6⟩

/-- The presence of the favicon element survives any number of ticks. -/
theorem ticks_isSome (k : Nat) (w : World) :
    (ticks k w).doc.favicon.isSome = w.doc.favicon.isSome := by
  induction k generalizing w with
  | zero => rfl
  | succ k ih => exact (ih (_timerEvent w)).trans (tick_isSome w)

/-- While strictly more ticks remain than are taken, every tick decrements
the countdown exactly, and no auto-stop happens: timers and the stop count
are untouched. -/
theorem ticks_linear (k : Nat) (w : World) (h : (k : Int) < w.ctrl.countdown) :
    (ticks k w).ctrl.countdown = w.ctrl.countdown - (k : Int) ∧
    (ticks k w).timers = w.timers ∧
    (ticks k w).trace.stopCalls = w.trace.stopCalls := by
  induction k generalizing w with
  | zero =>
    refine ⟨?_, rfl, rfl⟩
    show w.ctrl.countdown = w.ctrl.countdown - ((0 : Nat) : Int)
    simp
  | succ k ih =>
    have hcast : ((k + 1 : Nat) : Int) = (k : Int) + 1 := by push_cast; ring
    have hgt : 1 < w.ctrl.countdown := by omega
    have hne : w.ctrl.countdown ≠ 1 := by omega
    obtain ⟨n1, n2, n3⟩ := tick_nostop w hne
    have hdec : (_timerEvent w).ctrl.countdown = w.ctrl.countdown - 1 := by
      rw [n3, clampFloor_eq_pred _ hgt]
    have hlt : (k : Int) < (_timerEvent w).ctrl.countdown := by
      rw [hdec]; omega
    obtain ⟨i1, i2, i3⟩ := ih (_timerEvent w) hlt
    refine ⟨?_, ?_, ?_⟩
    · show (ticks k (_timerEvent w)).ctrl.countdown = _
      rw [i1, hdec]; omega
    · show (ticks k (_timerEvent w)).timers = _
      rw [i2, n1]
    · show (ticks k (_timerEvent w)).trace.stopCalls = _
      rw [i3, n2]

/-- Once the countdown has reached the `-1` floor it stays there, and no
auto-stop ever occurs: timers and the stop count stay untouched forever. -/
theorem ticks_stuck (k : Nat) (w : World) (h : w.ctrl.countdown = -1) :
    (ticks k w).ctrl.countdown = -1 ∧
    (ticks k w).timers = w.timers ∧
    (ticks k w).trace.stopCalls = w.trace.stopCalls := by
  induction k generalizing w with
  | zero => exact ⟨h, rfl, rfl⟩
  | succ k ih =>
    have hne : w.ctrl.countdown ≠ 1 := by omega
    obtain ⟨n1, n2, n3⟩ := tick_nostop w hne
    have hdec : (_timerEvent w).ctrl.countdown = -1 := by
      rw [n3, clampFloor_eq_neg_one _ (by omega)]
    obtain ⟨i1, i2, i3⟩ := ih (_timerEvent w) hdec
    refine ⟨i1, ?_, ?_⟩
    · show (ticks k (_timerEvent w)).timers = _
      rw [i2, n1]
    · show (ticks k (_timerEvent w)).trace.stopCalls = _
      rw [i3, n2]

/-- With an empty alert title, the number of title assignments performed
during any run of ticks equals the number of `stop()` invocations performed
during that run. -/
theorem ticks_titleWrites_delta (k : Nat) (w : World) (he : w.ctrl.alertTitle = "") :
    (ticks k w).trace.titleWrites + w.trace.stopCalls
      = (ticks k w).trace.stopCalls + w.trace.titleWrites := by
  induction k generalizing w with
  | zero =>
    show w.trace.titleWrites + _ = w.trace.stopCalls + _
    omega
  | succ k ih =>
    have he2 : (_timerEvent w).ctrl.alertTitle = "" := ((tick_frame w).2.2.1).trans he
    have step : (_timerEvent w).trace.titleWrites + w.trace.stopCalls
        = (_timerEvent w).trace.stopCalls + w.trace.titleWrites := by
      by_cases hc : w.ctrl.countdown = 1
      · obtain ⟨-, -, f3, -, -, -, f7⟩ := tick_final w hc
        rw [f3, f7 he]; omega
      · obtain ⟨-, n2, -⟩ := tick_nostop w hc
        rw [n2, tick_titleWrites_empty w he hc]
        omega
    have ihw := ih (_timerEvent w) he2
    show (ticks k (_timerEvent w)).trace.titleWrites + _
        = (ticks k (_timerEvent w)).trace.stopCalls + _
    omega

end TabAlert

namespace TabAlert

/-! ### Decomposition of `alert` -/

/-- `alert` is the resolved configuration, the fresh interval, and one
immediate tick. -/
theorem alert_eq (cfg : AlertConfig) (w : World) :
    alert cfg w = _timerEvent (preTick cfg w) := rfl

theorem preTick_countdown (cfg : AlertConfig) (w : World) :
    (preTick cfg w).ctrl.countdown
      = (match cfg.times with
         | some t => t * 2
         | none => 0) := rfl

theorem preTick_alertTitle (cfg : AlertConfig) (w : World) :
    (preTick cfg w).ctrl.alertTitle
      = (match cfg.message with
         | some m => m
         | none => "") := rfl

theorem preTick_alertDelay (cfg : AlertConfig) (w : World) :
    (preTick cfg w).ctrl.alertDelay
      = (match cfg.delay with
         | some d => d
         | none => DEFAULT_DELAY) := rfl

theorem preTick_originalTitle (cfg : AlertConfig) (w : World) :
    (preTick cfg w).ctrl.originalTitle = w.doc.title := rfl

theorem preTick_originalIcon (cfg : AlertConfig) (w : World) :
    (preTick cfg w).ctrl.originalIcon = _getOriginalFavicon w.doc := rfl

theorem preTick_intervalID (cfg : AlertConfig) (w : World) :
    (preTick cfg w).ctrl.intervalID = some w.timers.next := rfl

theorem preTick_timers (cfg : AlertConfig) (w : World) :
    (preTick cfg w).timers
      = { active := w.timers.active ++ [w.timers.next], next := w.timers.next + 1 } := rfl

theorem preTick_doc (cfg : AlertConfig) (w : World) :
    (preTick cfg w).doc = w.doc := rfl

theorem preTick_trace (cfg : AlertConfig) (w : World) :
    (preTick cfg w).trace = w.trace := rfl

/-- The countdown that `alert` resolves is never `1` (it is an even integer
or zero), so the immediate tick fired by `_startTimer` never reaches zero
and never auto-stops. -/
theorem preTick_countdown_ne_one (cfg : AlertConfig) (w : World) :
    (preTick cfg w).ctrl.countdown ≠ 1 := by
  rw [preTick_countdown]
  cases cfg.times with
  | none => decide
  | some t =>
    show t * 2 ≠ 1
    omega

/-- Effect of `alert` on the pieces of state that the claims mention:
the immediate tick performs no auto-stop, so the freshly installed interval
is active and the captured originals are in place. -/
theorem alert_spec (cfg : AlertConfig) (w : World) :
    (alert cfg w).trace.stopCalls = w.trace.stopCalls ∧
    (alert cfg w).timers
      = { active := w.timers.active ++ [w.timers.next], next := w.timers.next + 1 } ∧
    (alert cfg w).ctrl.intervalID = some w.timers.next ∧
    (alert cfg w).ctrl.originalTitle = w.doc.title ∧
    (alert cfg w).ctrl.originalIcon = _getOriginalFavicon w.doc ∧
    (alert cfg w).ctrl.alertTitle
      = (match cfg.message with
         | some m => m
         | none => "") ∧
    (alert cfg w).ctrl.countdown
      = clampFloor ((preTick cfg w).ctrl.countdown - 1) ∧
    (alert cfg w).doc.favicon.isSome = w.doc.favicon.isSome := by
  obtain ⟨n1, n2, n3⟩ := tick_nostop (preTick cfg w) (preTick_countdown_ne_one cfg w)
  obtain ⟨f1, f2, f3, f4, f5, f6⟩ := tick_frame (preTick cfg w)
  rw [alert_eq]
  refine ⟨?_, ?_, ?_, ?_, ?_, ?_, n3, ?_⟩
  · rw [n2, preTick_trace]
  · rw [n1, preTick_timers]
  · rw [f6, preTick_intervalID]
  · rw [f1, preTick_originalTitle]
  · rw [f2, preTick_originalIcon]
  · rw [f3, preTick_alertTitle]
  · rw [tick_isSome, preTick_doc]

end TabAlert

namespace TabAlert

/-! ### Small supporting facts -/

theorem alertBody_countdown (cfg : AlertConfig) (w : World) :
    (alertBody cfg w).ctrl.countdown
      = (match cfg.times with
         | some t => t * 2
         | none => 0) := rfl

theorem timerActiveB_eq_true (w : World) (i : Nat) (h1 : w.ctrl.intervalID = some i)
    (h2 : i ∈ w.timers.active) : timerActiveB w = true := by
  unfold timerActiveB
  rw [h1]
  simpa using h2

theorem timerActiveB_eq_false (w : World) (i : Nat) (t : Timers)
    (h1 : w.ctrl.intervalID = some i) (h2 : w.timers = clearInterval t (some i)) :
    timerActiveB w = false := by
  unfold timerActiveB
  rw [h1, h2]
  unfold clearInterval
  simp [List.mem_filter]

theorem filter_ne_idem (l : List Nat) (i : Nat) :
    (l.filter (fun x => x != i)).filter (fun x => x != i)
      = l.filter (fun x => x != i) := by
  induction l with
  | nil => rfl
  | cons a l ih =>
    by_cases h : a = i <;> simp [List.filter_cons, h, ih]

theorem match_map (x : Option Icon) (v : Icon) :
    (match x with
     | some _ => some v
     | none => none) = x.map (fun _ => v) := by
  cases x <;> rfl

/-- Restoring the captured original favicon puts the favicon element back to
exactly its state at capture time, whether or not the element exists. -/
theorem map_fav_eq (d : Doc) (x : Option Icon) (hx : x.isSome = d.favicon.isSome) :
    x.map (fun _ => _getOriginalFavicon d) = d.favicon := by
  revert hx
  cases hxx : x <;> cases hw : d.favicon <;> intro hx <;>
    simp_all [_getOriginalFavicon]

end TabAlert

namespace TabAlert

/-! ### Claims -/

/-- Claim C2: for every config, calling `stop()` at any point after
`alert(config)` — after any number of ticks — leaves the displayed document
title and the favicon element exactly equal to the values captured from the
host document at the most recent `alert()` call, with `showOriginal` forced
to `true`. -/
theorem C2_stop_restores_originals (cfg : AlertConfig) (w0 : World) (k : Nat) :
    (alert cfg w0).ctrl.originalTitle = w0.doc.title ∧
    (alert cfg w0).ctrl.originalIcon = _getOriginalFavicon w0.doc ∧
    (stop (ticks k (alert cfg w0))).doc.title = w0.doc.title ∧
    (stop (ticks k (alert cfg w0))).doc.favicon = w0.doc.favicon ∧
    (stop (ticks k (alert cfg w0))).ctrl.showOriginal = true := by
  obtain ⟨a1, a2, a3, a4, a5, a6, a7, a8⟩ := alert_spec cfg w0
  obtain ⟨f1, f2, f3, f4, f5, f6⟩ := ticks_frame k (alert cfg w0)
  have hsome : (ticks k (alert cfg w0)).doc.favicon.isSome = w0.doc.favicon.isSome :=
    (ticks_isSome k (alert cfg w0)).trans a8
  refine ⟨a4, a5, ?_, ?_, ?_⟩
  · have t : (stop (ticks k (alert cfg w0))).doc.title
        = (ticks k (alert cfg w0)).ctrl.originalTitle := by rw [stop_spec]
    rw [t, f1, a4]
  · have fv : (stop (ticks k (alert cfg w0))).doc.favicon
        = (match (ticks k (alert cfg w0)).doc.favicon with
           | some _ => some (ticks k (alert cfg w0)).ctrl.originalIcon
           | none => none) := by rw [stop_spec]
    rw [fv, f2.trans a5, match_map]
    exact map_fav_eq w0.doc _ hsome
  · rw [stop_spec]

/-- Claim C3: when `times` is omitted, no automatic stop ever occurs — after
any number of ticks the stop count is unchanged, the recurring timer is
still active, and the countdown sits at the `-1` floor, so alternation
continues until `stop()` is called explicitly. -/
theorem C3_omitted_times_never_stops (cfg : AlertConfig) (w0 : World) (k : Nat)
    (ht : cfg.times = none) :
    (alert cfg w0).trace.stopCalls = w0.trace.stopCalls ∧
    (ticks k (alert cfg w0)).trace.stopCalls = w0.trace.stopCalls ∧
    timerActiveB (ticks k (alert cfg w0)) = true ∧
    (ticks k (alert cfg w0)).ctrl.countdown = -1 := by
  obtain ⟨a1, a2, a3, a4, a5, a6, a7, a8⟩ := alert_spec cfg w0
  have hpre : (preTick cfg w0).ctrl.countdown = 0 := by rw [preTick_countdown, ht]
  have hcd : (alert cfg w0).ctrl.countdown = -1 := by
    rw [a7, hpre]
    exact clampFloor_eq_neg_one 0 (by omega)
  obtain ⟨s1, s2, s3⟩ := ticks_stuck k (alert cfg w0) hcd
  refine ⟨a1, s3.trans a1, ?_, s1⟩
  apply timerActiveB_eq_true _ w0.timers.next
  · exact ((ticks_frame k (alert cfg w0)).2.2.2.2.2).trans a3
  · rw [s2, a2]
    simp

/-- Witness for claim C3 at a concrete input. -/
theorem C3_witness :
    cfgEmpty.times = none ∧
    ((alert cfgEmpty W0).trace.stopCalls = W0.trace.stopCalls ∧
     (ticks 3 (alert cfgEmpty W0)).trace.stopCalls = W0.trace.stopCalls ∧
     timerActiveB (ticks 3 (alert cfgEmpty W0)) = true ∧
     (ticks 3 (alert cfgEmpty W0)).ctrl.countdown = -1) :=
  ⟨rfl, C3_omitted_times_never_stops cfgEmpty W0 3 rfl⟩

/-- Claim C9: calling `alert()` with `times = 0` does not stop immediately
and never auto-stops — the countdown is set to `0`, the immediate tick takes
it to `-1` where it is clamped, the stop condition is never met, and
alternation continues until an explicit `stop()`. -/
theorem C9_times_zero_never_stops (cfg : AlertConfig) (w0 : World) (k : Nat)
    (ht : cfg.times = some 0) :
    (alert cfg w0).trace.stopCalls = w0.trace.stopCalls ∧
    (ticks k (alert cfg w0)).trace.stopCalls = w0.trace.stopCalls ∧
    timerActiveB (ticks k (alert cfg w0)) = true ∧
    (ticks k (alert cfg w0)).ctrl.countdown = -1 := by
  obtain ⟨a1, a2, a3, a4, a5, a6, a7, a8⟩ := alert_spec cfg w0
  have hpre : (preTick cfg w0).ctrl.countdown = 0 := by
    rw [preTick_countdown, ht]
    decide
  have hcd : (alert cfg w0).ctrl.countdown = -1 := by
    rw [a7, hpre]
    exact clampFloor_eq_neg_one 0 (by omega)
  obtain ⟨s1, s2, s3⟩ := ticks_stuck k (alert cfg w0) hcd
  refine ⟨a1, s3.trans a1, ?_, s1⟩
  apply timerActiveB_eq_true _ w0.timers.next
  · exact ((ticks_frame k (alert cfg w0)).2.2.2.2.2).trans a3
  · rw [s2, a2]
    simp

/-- Witness for claim C9 at a concrete input. -/
theorem C9_witness :
    cfgT0.times = some 0 ∧
    ((alert cfgT0 W0).trace.stopCalls = W0.trace.stopCalls ∧
     (ticks 5 (alert cfgT0 W0)).trace.stopCalls = W0.trace.stopCalls ∧
     timerActiveB (ticks 5 (alert cfgT0 W0)) = true ∧
     (ticks 5 (alert cfgT0 W0)).ctrl.countdown = -1) :=
  ⟨rfl, C9_times_zero_never_stops cfgT0 W0 5 rfl⟩

/-- Claim C7, counterexample: providing `delay = 0` (which `parseInt`
accepts) stores a delay of `0`, violating the claimed invariant that the
stored delay is always strictly positive. -/
theorem C7_counterexample :
    (alert cfgD0 W0).ctrl.alertDelay = 0 ∧
    ¬ (0 < (alert cfgD0 W0).ctrl.alertDelay) := by
  constructor
  · rfl
  · decide

/-- Claim C7 as amended: after `alert(config)` the stored delay equals the
provided delay whenever `parseInt` yields a valid number — including zero
and negative values — and the default 1000 ms otherwise; the stored delay is
not guaranteed to be strictly positive. -/
theorem C7_amended_delay (cfg : AlertConfig) (w : World) :
    (alert cfg w).ctrl.alertDelay
      = (match cfg.delay with
         | some d => d
         | none => DEFAULT_DELAY) := by
  rw [alert_eq]
  rw [(tick_frame (preTick cfg w)).2.2.2.2.1]
  exact preTick_alertDelay cfg w

end TabAlert

namespace TabAlert

/-- Claim C8: `stop()` is idempotent — a second call in a row raises no
error and leaves the displayed document, the controller state, and the
active timers exactly as the first call left them (the ghost write counters
are the only difference, because the second call performs the same writes
with identical values). -/
theorem C8_stop_idempotent (w : World) :
    (stop (stop w)).doc = (stop w).doc ∧
    (stop (stop w)).ctrl = (stop w).ctrl ∧
    (stop (stop w)).timers = (stop w).timers := by
  rw [stop_spec w, stop_spec]
  refine ⟨?_, rfl, ?_⟩
  · cases w.doc.favicon <;> simp
  · cases h : w.ctrl.intervalID with
    | none => rfl
    | some i =>
      show clearInterval (clearInterval w.timers (some i)) (some i) = _
      unfold clearInterval
      simp [filter_ne_idem]

/-- Claim C10: every controller instance owns its closure state — an
`alert()` or `stop()` on instance `i` leaves every state field of any other
instance `j` unchanged. -/
theorem C10_instances_isolated (i j : Nat) (cfg : AlertConfig) (m : MultiWorld)
    (hij : i ≠ j) :
    (alertAt i cfg m).ctrls j = m.ctrls j ∧
    (stopAt i m).ctrls j = m.ctrls j := by
  constructor <;>
    simp [alertAt, stopAt, fromWorld, Function.update_noteq (Ne.symm hij)]

/-- Witness for claim C10 at a concrete input. -/
theorem C10_witness :
    (0 : Nat) ≠ 1 ∧
    ((alertAt 0 cfgEmpty M0).ctrls 1 = M0.ctrls 1 ∧
     (stopAt 0 M0).ctrls 1 = M0.ctrls 1) :=
  ⟨by decide, C10_instances_isolated 0 1 cfgEmpty M0 (by decide)⟩

/-- Claim C5, counterexample: calling `alert` with `undefined` (or `null`)
as the argument throws a `TypeError` at the first property read
`args.message`, so `alert` does not complete normally for every argument
value. -/
theorem C5_counterexample : jsThrows (alertJS JSArg.undef W0) = true := rfl

/-- Claim C5 as amended: for every argument that is a config object —
including objects missing any or all fields — `alert` completes without
raising an exception, and `stop()` always completes without raising an
exception; only a non-object argument (`undefined`/`null`) makes `alert`
throw. -/
theorem C5_amended_no_throw (cfg : AlertConfig) (w : World) :
    jsThrows (alertJS (JSArg.obj cfg) w) = false ∧
    jsThrows (stopJS w) = false ∧
    alertJS (JSArg.obj cfg) w = Except.ok (alert cfg w) :=
  ⟨rfl, rfl, rfl⟩

/-- Claim C4 (evaluating the code at the failing input): calling `alert()`
twice in a row installs a second recurring interval while the first is still
in the active set — `_startTimer` overwrites `intervalID` without any
`clearInterval`, so the first interval's callback keeps firing and is no
longer reachable for cancellation. -/
theorem C4_second_alert_leaks_interval :
    (alert cfgEmpty (alert cfgEmpty W0)).timers.active = [0, 1] ∧
    (alert cfgEmpty (alert cfgEmpty W0)).ctrl.intervalID = some 1 ∧
    0 ∈ (alert cfgEmpty (alert cfgEmpty W0)).timers.active := by
  refine ⟨rfl, rfl, ?_⟩
  decide

/-- Claim C6, counterexample: with `message` omitted and `times = 1`, the
tick on which the countdown expires runs the automatic `stop()`, and
`stop()` unconditionally assigns `document.title` — so the title is written
during that tick, contradicting the claim that it is never written. -/
theorem C6_counterexample :
    cfgT1.message = none ∧
    W0.trace.titleWrites = 0 ∧
    (ticks 1 (alert cfgT1 W0)).trace.titleWrites = 1 := by
  refine ⟨rfl, rfl, ?_⟩
  decide

/-- Claim C6 as amended: with `message` omitted, the title is never written
by `alert`'s immediate tick nor by any tick in which no automatic stop runs;
the only title assignments during ticks are the ones performed by `stop()`
when the countdown expires (which rewrite the captured original title), so
the number of title writes always equals the number of `stop()`
invocations. -/
theorem C6_amended_title_writes (cfg : AlertConfig) (w0 : World) (k : Nat)
    (h : cfg.message = none) :
    (alert cfg w0).trace.titleWrites = w0.trace.titleWrites ∧
    (alert cfg w0).trace.stopCalls = w0.trace.stopCalls ∧
    (ticks k (alert cfg w0)).trace.titleWrites + w0.trace.stopCalls
      = (ticks k (alert cfg w0)).trace.stopCalls + w0.trace.titleWrites := by
  have he : (preTick cfg w0).ctrl.alertTitle = "" := by
    rw [preTick_alertTitle, h]
  have hti : (alert cfg w0).trace.titleWrites = w0.trace.titleWrites := by
    rw [alert_eq,
        tick_titleWrites_empty _ he (preTick_countdown_ne_one cfg w0),
        preTick_trace]
  obtain ⟨a1, a2, a3, a4, a5, a6, a7, a8⟩ := alert_spec cfg w0
  have he1 : (alert cfg w0).ctrl.alertTitle = "" := by
    rw [a6, h]
  have hd := ticks_titleWrites_delta k (alert cfg w0) he1
  exact ⟨hti, a1, by omega⟩

/-- Witness for claim C6 (amended) at a concrete input. -/
theorem C6_witness :
    cfgEmpty.message = none ∧
    ((alert cfgEmpty W0).trace.titleWrites = W0.trace.titleWrites ∧
     (alert cfgEmpty W0).trace.stopCalls = W0.trace.stopCalls ∧
     (ticks 4 (alert cfgEmpty W0)).trace.titleWrites + W0.trace.stopCalls
       = (ticks 4 (alert cfgEmpty W0)).trace.stopCalls + W0.trace.titleWrites) :=
  ⟨rfl, C6_amended_title_writes cfgEmpty W0 4 rfl⟩

end TabAlert

namespace TabAlert

/-- Claim C1: for `alert(config)` with `times = n > 0`, `alert` sets the
countdown to `n * 2`; the half-toggles before the automatic stop are exactly
`2n` — `alert`'s immediate tick plus the `k`-th subsequent firings with
`k + 1 < 2n` perform no stop and leave the timer active, while the firing
that makes the total reach `2n` (that is, `m = 2n - 1` firings after
`alert`) decrements the countdown to exactly zero and invokes `stop()`
within that same tick, leaving the displayed title and favicon equal to the
originals captured at `alert` time. -/
theorem C1_bounded_auto_stop (n : Int) (k m : Nat) (cfg : AlertConfig) (w0 : World)
    (hn : 0 < n) (ht : cfg.times = some n)
    (hk : (k : Int) + 1 < n * 2) (hm : (m : Int) = n * 2 - 1) :
    (alertBody cfg w0).ctrl.countdown = n * 2 ∧
    (alert cfg w0).ctrl.countdown = n * 2 - 1 ∧
    (ticks k (alert cfg w0)).trace.stopCalls = w0.trace.stopCalls ∧
    timerActiveB (ticks k (alert cfg w0)) = true ∧
    (ticks m (alert cfg w0)).trace.stopCalls = w0.trace.stopCalls + 1 ∧
    timerActiveB (ticks m (alert cfg w0)) = false ∧
    (ticks m (alert cfg w0)).doc.title = w0.doc.title ∧
    (ticks m (alert cfg w0)).doc.favicon = w0.doc.favicon ∧
    (ticks m (alert cfg w0)).ctrl.showOriginal = true := by
  obtain ⟨a1, a2, a3, a4, a5, a6, a7, a8⟩ := alert_spec cfg w0
  have hb : (alertBody cfg w0).ctrl.countdown = n * 2 := by
    rw [alertBody_countdown, ht]
  have hpre : (preTick cfg w0).ctrl.countdown = n * 2 := by
    rw [preTick_countdown, ht]
  have hcd1 : (alert cfg w0).ctrl.countdown = n * 2 - 1 := by
    rw [a7, hpre, clampFloor_eq_pred _ (by omega)]
  have hk2 : (k : Int) < (alert cfg w0).ctrl.countdown := by
    rw [hcd1]; omega
  obtain ⟨l1, l2, l3⟩ := ticks_linear k (alert cfg w0) hk2
  have hkActive : timerActiveB (ticks k (alert cfg w0)) = true := by
    apply timerActiveB_eq_true _ w0.timers.next
    · exact ((ticks_frame k (alert cfg w0)).2.2.2.2.2).trans a3
    · rw [l2, a2]; simp
  obtain ⟨j, rfl⟩ : ∃ j, m = j + 1 := ⟨m - 1, by omega⟩
  have hj : (j : Int) < (alert cfg w0).ctrl.countdown := by
    rw [hcd1]; omega
  obtain ⟨p1, p2, p3⟩ := ticks_linear j (alert cfg w0) hj
  have hcdj : (ticks j (alert cfg w0)).ctrl.countdown = 1 := by
    rw [p1, hcd1]; omega
  obtain ⟨q1, q2, q3, q4, q5, q6⟩ := ticks_frame j (alert cfg w0)
  obtain ⟨g1, g2, g3, g4, g5, g6, g7⟩ := tick_final (ticks j (alert cfg w0)) hcdj
  have hrw : ticks (j + 1) (alert cfg w0) = _timerEvent (ticks j (alert cfg w0)) :=
    ticks_succ_right j (alert cfg w0)
  refine ⟨hb, hcd1, l3.trans a1, hkActive, ?_, ?_, ?_, ?_, ?_⟩
  · rw [hrw, g3, p3, a1]
  · rw [hrw]
    apply timerActiveB_eq_false _ w0.timers.next (ticks j (alert cfg w0)).timers
    · exact ((tick_frame (ticks j (alert cfg w0))).2.2.2.2.2).trans (q6.trans a3)
    · rw [g4, q6.trans a3]
  · rw [hrw, g5, q1, a4]
  · rw [hrw, g6, q2.trans a5, match_map]
    apply map_fav_eq
    exact (ticks_isSome j (alert cfg w0)).trans a8
  · rw [hrw, g2]

/-- Witness for claim C1 at a concrete input (`times = 1`: two half-toggles,
stop on the second). -/
theorem C1_witness :
    (0 : Int) < 1 ∧ cfgMsg.times = some 1 ∧
    (((0 : Nat) : Int) + 1 < 1 * 2) ∧ (((1 : Nat) : Int) = 1 * 2 - 1) ∧
    ((alertBody cfgMsg W0).ctrl.countdown = 1 * 2 ∧
     (alert cfgMsg W0).ctrl.countdown = 1 * 2 - 1 ∧
     (ticks 0 (alert cfgMsg W0)).trace.stopCalls = W0.trace.stopCalls ∧
     timerActiveB (ticks 0 (alert cfgMsg W0)) = true ∧
     (ticks 1 (alert cfgMsg W0)).trace.stopCalls = W0.trace.stopCalls + 1 ∧
     timerActiveB (ticks 1 (alert cfgMsg W0)) = false ∧
     (ticks 1 (alert cfgMsg W0)).doc.title = W0.doc.title ∧
     (ticks 1 (alert cfgMsg W0)).doc.favicon = W0.doc.favicon ∧
     (ticks 1 (alert cfgMsg W0)).ctrl.showOriginal = true) :=
  ⟨by decide, rfl, by decide, by decide,
   C1_bounded_auto_stop 1 0 1 cfgMsg W0 (by decide) rfl (by decide) (by decide)⟩

end TabAlert
